import Mathlib

set_option linter.unusedVariables false

/-!
Shallow embedding of the Iris pallets (w3f-grants-archive/iris) relevant to the
frozen claims: the data-assets pallet (ingestion command queue, staging map,
asset-class creation, proxy re-encryption fragment decryption) and the ipfs
pallet (completion reports, identity bridge, offchain-worker gating).

Conventions of the embedding:
- AccountId, Balance, AssetId and block numbers are Nat; byte strings (Vec u8)
  are List Nat.
- A Substrate StorageMap is an association list with at most one entry per key;
  insert overwrites, remove deletes the key, lookup on ValueQuery maps applies
  the default value.
- A dispatchable returning DispatchResult is embedded as Except E State: on
  Except.ok the new state is returned, on Except.error the dispatch is
  transactional so storage reverts and the error carries no state.
- A Rust panic (a call to unwrap on None or Err) is embedded as the value none
  of an outer Option layer.
- External collaborators that the spec puts out of scope (pallet_assets create,
  pallet_vesting vested_transfer, the SalsaBox AEAD, umbral fragment parsing,
  the local ipfs daemon) are modeled as boolean flags or function parameters;
  the control flow around them is translated from the source.
-/

namespace Iris

/-- Lookup in the association-list view of a StorageMap: first entry with the key. -/
def lookupA {κ α : Type} [DecidableEq κ] : List (κ × α) → κ → Option α
  | [], _ => none
  | (k0, v) :: rest, k => if k0 = k then some v else lookupA rest k

/-- Insert in the association-list view of a StorageMap: overwrite the first
entry holding the key, append a new entry when the key is absent. -/
def insertA {κ α : Type} [DecidableEq κ] : List (κ × α) → κ → α → List (κ × α)
  | [], k, v => [(k, v)]
  | (k0, v0) :: rest, k, v =>
      if k0 = k then (k, v) :: rest else (k0, v0) :: insertA rest k v

/-- Remove in the association-list view of a StorageMap: delete every entry
holding the key (a StorageMap has at most one). -/
def removeA {κ α : Type} [DecidableEq κ] : List (κ × α) → κ → List (κ × α)
  | [], _ => []
  | (k0, v0) :: rest, k =>
      if k0 = k then removeA rest k else (k0, v0) :: removeA rest k

/-- Well-formedness of the association-list view: every key occurs at most
once, so the list really is the graph of a StorageMap. -/
def distinctKeys {κ α : Type} [DecidableEq κ] : List (κ × α) → Bool
  | [] => true
  | (k0, _) :: rest => (lookupA rest k0).isNone && distinctKeys rest

/-- Index of the first structurally-equal element, as computed by the Rust
iterator method position with an equality predicate. -/
def firstIdx {α : Type} [DecidableEq α] : List α → α → Option Nat
  | [], _ => none
  | c :: rest, a => if c = a then some 0 else (firstIdx rest a).map (· + 1)

/-- Number of occurrences of an element in a list, by structural equality. -/
def countOcc {α : Type} [DecidableEq α] (a : α) : List α → Nat
  | [] => 0
  | b :: rest => (if b = a then 1 else 0) + countOcc a rest

/-- Codec of iris_primitives IngestionCommand, as constructed in create_request
of src/pallets/data-assets/src/lib.rs; structural equality (derived PartialEq)
is what contains and position use in the source. -/
structure IngestionCommand where
  owner : Nat
  cid : List Nat
  multiaddress : List Nat
  estimated_size_gb : Nat
  balance : Nat
deriving DecidableEq, Repr

/-- AssetMetadata of src/pallets/data-assets/src/lib.rs. -/
structure AssetMetadata where
  cid : List Nat
  public_key : List Nat
deriving DecidableEq, Repr

/-- Storage of the data-assets pallet that the claims touch:
IngestionCommands (gateway account to queued commands, ValueQuery with default
empty), NextAssetId, Metadata (asset id to AssetMetadata, OptionQuery) and
IngestionStaging (owner account to staged public key, OptionQuery). -/
structure DataAssetsState where
  ingestionCommands : List (Nat × List IngestionCommand)
  nextAssetId : Nat
  metadata : List (Nat × AssetMetadata)
  ingestionStaging : List (Nat × List Nat)
deriving DecidableEq, Repr

/-- Dispatch errors reachable in the embedded calls. CantCreateAssetClass is
the data-assets pallet error; VestedTransferFailed stands for any error of the
external vested_transfer call; NotAuthorized is the ipfs pallet error raised
by submit_ingestion_completed. -/
inductive DAError where
  | cantCreateAssetClass
  | vestedTransferFailed
  | notAuthorized
deriving DecidableEq, Repr

/-- QueueManager ingestion_requests: read of the IngestionCommands map, with
the ValueQuery default of an empty queue. -/
def ingestion_requests (s : DataAssetsState) (gateway : Nat) : List IngestionCommand :=
  (lookupA s.ingestionCommands gateway).getD []

/-- QueueManager add_ingestion_staging of src/pallets/data-assets/src/lib.rs:
an unconditional StorageMap insert, with no error path in its signature. -/
def add_ingestion_staging (s : DataAssetsState) (owner : Nat) (public_key : List Nat) :
    DataAssetsState :=
  { s with ingestionStaging := insertA s.ingestionStaging owner public_key }

/-- Dispatchable create_request of src/pallets/data-assets/src/lib.rs: reads
the queue of the gateway, pushes the new IngestionCommand built from the
arguments, writes the queue back, then performs the external vested_transfer
(modeled by the vestOk flag; gateway_reserve and the Delay-based target block
feed only that external call). On a vesting error the dispatch reverts. -/
def create_request (s : DataAssetsState) (who gateway : Nat) (gateway_reserve : Nat)
    (cid multiaddress : List Nat) (estimated_size_gb : Nat) (min_asset_balance : Nat)
    (vestOk : Bool) : Except DAError DataAssetsState :=
  let commands := ingestion_requests s gateway
  let cmd : IngestionCommand :=
    { owner := who, cid := cid, multiaddress := multiaddress,
      estimated_size_gb := estimated_size_gb, balance := min_asset_balance }
  let s1 := { s with ingestionCommands := insertA s.ingestionCommands gateway (commands ++ [cmd]) }
  if vestOk then Except.ok s1 else Except.error DAError.vestedTransferFailed

/-- ResultsHandler create_asset_class of src/pallets/data-assets/src/lib.rs,
with who the signed origin (the gateway that submitted the completion report).
When the owner of cmd has no IngestionStaging entry the source returns Ok with
no state change. Otherwise get_and_increment_asset_id yields the current
NextAssetId and bumps it; the external pallet_assets create call is modeled by
assetsCreateOk (its failure becomes the CantCreateAssetClass error and the
transactional dispatch reverts every write); Metadata gains the record of
cmd.cid and the staged public key at the fresh asset id; the staging entry of
the owner is removed; finally the source calls unwrap on the result of
cmds.iter().position(|c| *c == cmd) over the queue of who and Vec::remove at
that index — the unwrap panics when cmd is absent from the queue, embedded
here as the outer none. -/
def create_asset_class (s : DataAssetsState) (who : Nat) (cmd : IngestionCommand)
    (assetsCreateOk : Bool) : Option (Except DAError DataAssetsState) :=
  match lookupA s.ingestionStaging cmd.owner with
  | some pubkey =>
      let asset_id := s.nextAssetId
      if assetsCreateOk then
        let cmds := ingestion_requests s who
        match firstIdx cmds cmd with
        | some cmd_idx =>
            some (Except.ok
              { ingestionCommands := insertA s.ingestionCommands who (cmds.eraseIdx cmd_idx),
                nextAssetId := asset_id + 1,
                metadata := insertA s.metadata asset_id { cid := cmd.cid, public_key := pubkey },
                ingestionStaging := removeA s.ingestionStaging cmd.owner })
        | none => none
      else
        some (Except.error DAError.cantCreateAssetClass)
  | none => some (Except.ok s)

/-- Dispatchable submit_ingestion_completed of src/pallets/ipfs/src/lib.rs:
reads the queue of the signed origin who, requires that it contains cmd
(ensure! with the NotAuthorized error, which aborts the dispatch with no state
change), then invokes create_asset_class with a Signed(who) origin. -/
def submit_ingestion_completed (s : DataAssetsState) (who : Nat) (cmd : IngestionCommand)
    (assetsCreateOk : Bool) : Option (Except DAError DataAssetsState) :=
  let queued_commands := ingestion_requests s who
  if cmd ∈ queued_commands then
    create_asset_class s who cmd assetsCreateOk
  else
    some (Except.error DAError.notAuthorized)

/-- Runtime-api helper decrypt of src/pallets/data-assets/src/lib.rs: its whole
body is commented out in the source and it unconditionally returns
Some(Bytes::from(Vec::new())), an empty byte string reported as success,
whatever the signature, ciphertext or key material are. -/
def decrypt (signature signer message ciphertext : List Nat) (asset_id : Nat)
    (secret_key_bytes : List Nat) : Option (List Nat) :=
  some []

/-- Codec of iris_primitives EncryptedFragment as consumed by
decrypt_capsule_fragments: ephemeral public key, nonce and AEAD ciphertext. -/
structure EncryptedFragment where
  public_key : List Nat
  nonce : List Nat
  ciphertext : List Nat
deriving DecidableEq, Repr

/-- Modelled from the spec: iris_primitives slice_to_array_32 is not under
src/; it converts a byte slice to a 32-byte array, returning Some exactly when
the input has length 32 (the conversion cannot do anything else). -/
def slice_to_array_32 (v : List Nat) : Option (List Nat) :=
  if v.length = 32 then some v else none

/-- Helper decrypt_capsule_fragments of src/pallets/data-assets/src/lib.rs.
The external cryptography is abstracted into parameters: salsaDecrypt models
SalsaBox::decrypt of the crypto_box crate (arguments: delegatee secret key,
ephemeral public key, nonce, ciphertext; none models a failed authenticated
decryption, that is a tag mismatch under that key) and from_verified_bytes
models VerifiedCapsuleFrag::from_verified_bytes of umbral_pre (none models
bytes that do not parse as a verified fragment). The source return type
Vec of VerifiedCapsuleFrag has no error channel; every fallible step is
followed by unwrap, so any failure is a panic, embedded as the outer none. -/
def decrypt_capsule_fragments
    (salsaDecrypt : List Nat → List Nat → List Nat → List Nat → Option (List Nat))
    (from_verified_bytes : List Nat → Option (List Nat))
    (encrypted_cfrags : List EncryptedFragment) (secret_key : List Nat) :
    Option (List (List Nat)) :=
  match encrypted_cfrags with
  | [] => some []
  | frag :: rest =>
      match slice_to_array_32 frag.public_key with
      | none => none
      | some pubkey_slice_32 =>
          match salsaDecrypt secret_key pubkey_slice_32 frag.nonce frag.ciphertext with
          | none => none
          | some decrypted_frag_vec =>
              match from_verified_bytes decrypted_frag_vec with
              | none => none
              | some vfrag =>
                  match decrypt_capsule_fragments salsaDecrypt from_verified_bytes rest secret_key with
                  | none => none
                  | some vfrags => some (vfrag :: vfrags)

/-- Error of the ipfs pallet raised by submit_ipfs_identity. -/
inductive IpfsErr where
  | invalidPublicKey
deriving DecidableEq, Repr

/-- Storage of the ipfs pallet that the claims touch: BootstrapNodes (ipfs
public key to multiaddresses) and SubstrateIpfsBridge (ipfs public key to
substrate account id, OptionQuery). -/
structure IpfsState where
  bootstrapNodes : List (List Nat × List (List Nat))
  substrateIpfsBridge : List (List Nat × Nat)
deriving DecidableEq, Repr

/-- Dispatchable submit_ipfs_identity of src/pallets/ipfs/src/lib.rs: when the
bridge already holds an association for public_key, the signed origin must be
exactly the associated account (ensure! with InvalidPublicKey, aborting the
dispatch before any write, so both maps stay unchanged); otherwise both maps
are written: BootstrapNodes gains the multiaddresses and SubstrateIpfsBridge
the account, overwriting any previous entries under that key. -/
def submit_ipfs_identity (s : IpfsState) (who : Nat) (public_key : List Nat)
    (multiaddresses : List (List Nat)) : Except IpfsErr IpfsState :=
  match lookupA s.substrateIpfsBridge public_key with
  | some existing_association =>
      if who = existing_association then
        Except.ok
          { bootstrapNodes := insertA s.bootstrapNodes public_key multiaddresses,
            substrateIpfsBridge := insertA s.substrateIpfsBridge public_key who }
      else
        Except.error IpfsErr.invalidPublicKey
  | none =>
      Except.ok
        { bootstrapNodes := insertA s.bootstrapNodes public_key multiaddresses,
          substrateIpfsBridge := insertA s.substrateIpfsBridge public_key who }

/-- Node-local conditions read by the offchain worker: whether sp_io reports
the node as a validator, whether the local ipfs daemon answers the identity
call, and the ipfs public key it reports. -/
structure OffchainEnv where
  isValidator : Bool
  identityOk : Bool
  identityPubkey : List Nat
deriving DecidableEq, Repr

/-- Call-shape of the offchain_worker hook of src/pallets/ipfs/src/lib.rs:
true exactly when the hook reaches the handle_ingestion_queue(addr) call at
the given block. The source nests the entire body, identity verification,
config sync and ingestion processing alike, inside the single guard
block_number % NodeConfigBlockDuration == 0, then requires is_validator, a
successful ipfs identity fetch, and an existing SubstrateIpfsBridge entry for
the reported public key. -/
def offchain_worker_invokes_handle_ingestion_queue (block_number : Nat)
    (nodeConfigBlockDuration : Nat) (env : OffchainEnv)
    (substrateIpfsBridge : List (List Nat × Nat)) : Bool :=
  block_number % nodeConfigBlockDuration == 0 &&
    (env.isValidator &&
      (env.identityOk && (lookupA substrateIpfsBridge env.identityPubkey).isSome))

/-- Sample ingestion command used by the concrete theorems: owner account 0,
cid [1], multiaddress [2], one estimated gigabyte, bond 1. -/
def cEx : IngestionCommand :=
  { owner := 0, cid := [1], multiaddress := [2], estimated_size_gb := 1, balance := 1 }

/-- Sample empty data-assets state (no queues, no metadata, no staging). -/
def sEmpty : DataAssetsState :=
  { ingestionCommands := [], nextAssetId := 2, metadata := [], ingestionStaging := [] }

/-- Sample state in which owner 0 has staged public key [9] but the queue of
gateway 7 is empty. -/
def sStagedNoQueue : DataAssetsState :=
  { ingestionCommands := [], nextAssetId := 2, metadata := [], ingestionStaging := [(0, [9])] }

/-- Sample state in which gateway 1 holds the command cEx twice (a duplicate
submission) and owner 0 has staged public key [9]. -/
def sDup : DataAssetsState :=
  { ingestionCommands := [(1, [cEx, cEx])], nextAssetId := 2, metadata := [],
    ingestionStaging := [(0, [9])] }

/-- Sample state in which gateway 1 holds the command cEx exactly once and
owner 0 has staged public key [9]. -/
def sOne : DataAssetsState :=
  { ingestionCommands := [(1, [cEx])], nextAssetId := 2, metadata := [],
    ingestionStaging := [(0, [9])] }

/-- Sample offchain environment: a validator with a reachable ipfs daemon
reporting public key [0]. -/
def envEx : OffchainEnv :=
  { isValidator := true, identityOk := true, identityPubkey := [0] }

/-- Looking up the key just inserted yields the inserted value. -/
theorem lookupA_insertA_self {κ α : Type} [DecidableEq κ] (m : List (κ × α)) (k : κ) (v : α) :
    lookupA (insertA m k v) k = some v := by
  induction m with
  | nil => simp [insertA, lookupA]
  | cons p rest ih =>
      obtain ⟨k0, v0⟩ := p
      by_cases h : k0 = k
      · simp [insertA, h, lookupA]
      · simp [insertA, h, lookupA, ih]

/-- Looking up a key just removed yields nothing. -/
theorem lookupA_removeA_self {κ α : Type} [DecidableEq κ] (m : List (κ × α)) (k : κ) :
    lookupA (removeA m k) k = none := by
  induction m with
  | nil => simp [removeA, lookupA]
  | cons p rest ih =>
      obtain ⟨k0, v0⟩ := p
      by_cases h : k0 = k
      · simp [removeA, h, ih]
      · simp [removeA, h, lookupA, ih]

/-- Looking up any other key is unaffected by an insert. -/
theorem lookupA_insertA_of_ne {κ α : Type} [DecidableEq κ] (m : List (κ × α)) (k k0 : κ)
    (v : α) (h : k0 ≠ k) : lookupA (insertA m k v) k0 = lookupA m k0 := by
  have hne : ¬ k = k0 := fun hh => h hh.symm
  induction m with
  | nil => simp [insertA, lookupA, hne]
  | cons p rest ih =>
      obtain ⟨k1, v1⟩ := p
      by_cases hk : k1 = k
      · subst hk
        simp [insertA, lookupA, hne]
      · simp [insertA, hk, lookupA, ih]

/-- Insert preserves key distinctness of the association-list map. -/
theorem distinctKeys_insertA {κ α : Type} [DecidableEq κ] (m : List (κ × α)) (k : κ) (v : α)
    (h : distinctKeys m = true) : distinctKeys (insertA m k v) = true := by
  induction m with
  | nil => simp [insertA, distinctKeys, lookupA]
  | cons p rest ih =>
      obtain ⟨k0, v0⟩ := p
      simp [distinctKeys] at h
      by_cases hk : k0 = k
      · subst hk
        simp [insertA, distinctKeys, h.1, h.2]
      · simp [insertA, hk, distinctKeys]
        refine ⟨?_, ih h.2⟩
        rw [lookupA_insertA_of_ne rest k k0 v hk]
        exact h.1

/-- A member of a list has a first index. -/
theorem firstIdx_of_mem {α : Type} [DecidableEq α] (l : List α) (a : α) (h : a ∈ l) :
    ∃ i, firstIdx l a = some i := by
  induction l with
  | nil => simp at h
  | cons c rest ih =>
      by_cases hc : c = a
      · exact ⟨0, by simp [firstIdx, hc]⟩
      · have hm : a ∈ rest := by
          rcases List.mem_cons.mp h with h1 | h1
          · exact absurd h1.symm hc
          · exact h1
        obtain ⟨i, hi⟩ := ih hm
        exact ⟨i + 1, by simp [firstIdx, hc, hi]⟩

/-- Erasing at the first index of an element lowers its occurrence count by one. -/
theorem countOcc_eraseIdx_firstIdx {α : Type} [DecidableEq α] (l : List α) (a : α) :
    ∀ i, firstIdx l a = some i → countOcc a (l.eraseIdx i) + 1 = countOcc a l := by
  induction l with
  | nil => intro i h; simp [firstIdx] at h
  | cons c rest ih =>
      intro i h
      by_cases hc : c = a
      · simp [firstIdx, hc] at h
        subst h
        simp [List.eraseIdx, countOcc, hc, Nat.add_comm]
      · simp [firstIdx, hc] at h
        obtain ⟨j, hj, hji⟩ := h
        subst hji
        simp [List.eraseIdx, countOcc, hc, ih j hj]

/-- An element with occurrence count zero is not a member. -/
theorem not_mem_of_countOcc_zero {α : Type} [DecidableEq α] (l : List α) (a : α)
    (h : countOcc a l = 0) : a ∉ l := by
  induction l with
  | nil => simp
  | cons c rest ih =>
      by_cases hc : c = a
      · simp [countOcc, hc] at h
      · simp [countOcc, hc] at h
        simp [ih h]
        exact fun heq => hc heq.symm

/-- Claim C1, counterexample: in the state sEmpty the command cEx is not in
the queue of gateway 1, yet submit_ingestion_completed returns the dispatch
error NotAuthorized rather than being accepted as a silent no-op without an
error, refuting the claim that such a report does not return an error. -/
theorem claim1_counterexample :
    submit_ingestion_completed sEmpty 1 cEx true =
      some (Except.error DAError.notAuthorized) ∧
    submit_ingestion_completed sEmpty 1 cEx true ≠ some (Except.ok sEmpty) := by
  constructor
  · rfl
  · intro h
    simp [submit_ingestion_completed, sEmpty, ingestion_requests, lookupA, cEx] at h

/-- Claim C1 (amended): for every gateway account who and every ingestion
command cmd, submitting a completion report for cmd when cmd is not currently
present in the queue of who is rejected with the typed dispatch error
NotAuthorized; because the ensure! fires before any write and dispatch is
transactional, no state changes (the error result carries no state). -/
theorem claim1_amended_rejects_unqueued_report (s : DataAssetsState) (who : Nat)
    (cmd : IngestionCommand) (assetsCreateOk : Bool)
    (h : cmd ∉ ingestion_requests s who) :
    submit_ingestion_completed s who cmd assetsCreateOk =
      some (Except.error DAError.notAuthorized) := by
  simp [submit_ingestion_completed, h]

/-- Claim C1 witness: the amended theorem applied at the concrete state sEmpty
with gateway 1 and command cEx. -/
theorem claim1_amended_rejects_unqueued_report_witness :
    cEx ∉ ingestion_requests sEmpty 1 ∧
    submit_ingestion_completed sEmpty 1 cEx true =
      some (Except.error DAError.notAuthorized) :=
  ⟨by decide, claim1_amended_rejects_unqueued_report sEmpty 1 cEx true (by decide)⟩

/-- Claim C2: in the state sStagedNoQueue the owner of cEx has staged public
key [9] while cEx is absent from the queue of caller 7, and create_asset_class
evaluates to none, the embedding of a Rust panic: the source unwraps the result
of position over the queue, so the removal of an absent command panics instead
of being the silent no-op the claim (and the spec) require. -/
theorem claim2_create_asset_class_panics_when_command_absent :
    create_asset_class sStagedNoQueue 7 cEx true = none := by rfl

/-- Claim C7: the decrypt operation of the data-assets pallet returns
some [] , an empty byte output reported as success, for every input, including
every input on which a cryptographic step would fail; its body is commented
out in the source, so no failure is ever surfaced as a typed error, refuting
the claim. -/
theorem claim7_decrypt_always_empty_success (signature signer message ciphertext : List Nat)
    (asset_id : Nat) (secret_key_bytes : List Nat) :
    decrypt signature signer message ciphertext asset_id secret_key_bytes = some [] := rfl

/-- Claim C9: when the owner of cmd has no IngestionStaging entry,
create_asset_class returns Ok with the state unchanged (literally the input
state), so no asset class is created, NextAssetId is unchanged, no Metadata
entry is written, the staging map is unchanged and cmd stays in the queue. -/
theorem claim9_create_asset_class_noop_when_unstaged (s : DataAssetsState) (who : Nat)
    (cmd : IngestionCommand) (assetsCreateOk : Bool)
    (h : lookupA s.ingestionStaging cmd.owner = none) :
    create_asset_class s who cmd assetsCreateOk = some (Except.ok s) := by
  simp [create_asset_class, h]

/-- Claim C9 witness: the theorem applied at the concrete state sEmpty with
caller 1 and command cEx. -/
theorem claim9_create_asset_class_noop_when_unstaged_witness :
    lookupA sEmpty.ingestionStaging cEx.owner = none ∧
    create_asset_class sEmpty 1 cEx true = some (Except.ok sEmpty) :=
  ⟨rfl, claim9_create_asset_class_noop_when_unstaged sEmpty 1 cEx true rfl⟩

/-- Claim C3, counterexample: in the state sDup the command cEx is queued
twice for gateway 1 and its owner has staged public key [9]; the completion
report succeeds, yet the resulting queue still contains cEx (only the first
occurrence was removed), refuting the claim that the queue is left without
the command. -/
theorem claim3_counterexample :
    submit_ingestion_completed sDup 1 cEx true =
      some (Except.ok
        { ingestionCommands := [(1, [cEx])], nextAssetId := 3,
          metadata := [(2, { cid := [1], public_key := [9] })], ingestionStaging := [] }) ∧
    cEx ∈ ingestion_requests
      { ingestionCommands := [(1, [cEx])], nextAssetId := 3,
        metadata := [(2, { cid := [1], public_key := [9] })], ingestionStaging := [] } 1 :=
  ⟨rfl, by decide⟩

/-- Claim C3 (amended): for every gateway who and command cmd queued for who
whose owner has a staged public key, a successful completion report registers
metadata under the current NextAssetId (with the cid of cmd and the staged
key), increments NextAssetId, removes the staging entry of the owner, and
removes exactly the first occurrence of cmd from the queue of who, lowering
the occurrence count of cmd by one; when cmd was queued exactly once, the
queue is left without cmd. -/
theorem claim3_amended_completion_effects (s : DataAssetsState) (who : Nat)
    (cmd : IngestionCommand) (pubkey : List Nat)
    (hstaged : lookupA s.ingestionStaging cmd.owner = some pubkey)
    (hqueued : cmd ∈ ingestion_requests s who) :
    ∃ s2 i,
      submit_ingestion_completed s who cmd true = some (Except.ok s2) ∧
      firstIdx (ingestion_requests s who) cmd = some i ∧
      s2.nextAssetId = s.nextAssetId + 1 ∧
      lookupA s2.metadata s.nextAssetId = some { cid := cmd.cid, public_key := pubkey } ∧
      lookupA s2.ingestionStaging cmd.owner = none ∧
      ingestion_requests s2 who = (ingestion_requests s who).eraseIdx i ∧
      countOcc cmd (ingestion_requests s2 who) + 1 = countOcc cmd (ingestion_requests s who) ∧
      (countOcc cmd (ingestion_requests s who) = 1 → cmd ∉ ingestion_requests s2 who) := by
  obtain ⟨i, hi⟩ := firstIdx_of_mem _ _ hqueued
  have hrun : submit_ingestion_completed s who cmd true =
      some (Except.ok
        { ingestionCommands := insertA s.ingestionCommands who
            ((ingestion_requests s who).eraseIdx i),
          nextAssetId := s.nextAssetId + 1,
          metadata := insertA s.metadata s.nextAssetId { cid := cmd.cid, public_key := pubkey },
          ingestionStaging := removeA s.ingestionStaging cmd.owner }) := by
    simp [submit_ingestion_completed, create_asset_class, hqueued, hstaged, hi]
  have hqueue2 : ingestion_requests
      { ingestionCommands := insertA s.ingestionCommands who
          ((ingestion_requests s who).eraseIdx i),
        nextAssetId := s.nextAssetId + 1,
        metadata := insertA s.metadata s.nextAssetId { cid := cmd.cid, public_key := pubkey },
        ingestionStaging := removeA s.ingestionStaging cmd.owner } who =
      (ingestion_requests s who).eraseIdx i := by
    simp [ingestion_requests, lookupA_insertA_self]
  have hcount : countOcc cmd ((ingestion_requests s who).eraseIdx i) + 1 =
      countOcc cmd (ingestion_requests s who) :=
    countOcc_eraseIdx_firstIdx _ _ i hi
  refine ⟨_, i, hrun, hi, rfl, ?_, ?_, hqueue2, ?_, ?_⟩
  · exact lookupA_insertA_self _ _ _
  · exact lookupA_removeA_self _ _
  · rw [hqueue2]; exact hcount
  · intro hone
    rw [hqueue2]
    apply not_mem_of_countOcc_zero
    omega

/-- Claim C3 witness: the amended theorem applied at the concrete state sOne,
in which gateway 1 holds cEx exactly once and owner 0 has staged key [9]. -/
theorem claim3_amended_completion_effects_witness :
    lookupA sOne.ingestionStaging cEx.owner = some [9] ∧
    cEx ∈ ingestion_requests sOne 1 ∧
    (∃ s2 i,
      submit_ingestion_completed sOne 1 cEx true = some (Except.ok s2) ∧
      firstIdx (ingestion_requests sOne 1) cEx = some i ∧
      s2.nextAssetId = sOne.nextAssetId + 1 ∧
      lookupA s2.metadata sOne.nextAssetId = some { cid := cEx.cid, public_key := [9] } ∧
      lookupA s2.ingestionStaging cEx.owner = none ∧
      ingestion_requests s2 1 = (ingestion_requests sOne 1).eraseIdx i ∧
      countOcc cEx (ingestion_requests s2 1) + 1 = countOcc cEx (ingestion_requests sOne 1) ∧
      (countOcc cEx (ingestion_requests sOne 1) = 1 → cEx ∉ ingestion_requests s2 1)) :=
  ⟨rfl, by decide, claim3_amended_completion_effects sOne 1 cEx [9] rfl (by decide)⟩

/-- Claim C4, counterexample: at block 1 with NodeConfigBlockDuration 2, on a
validator node with a reachable ipfs daemon and a registered ipfs-substrate
association for the reported key [0], the offchain worker does not reach
handle_ingestion_queue, refuting the claim that ingestion processing runs at
every tick regardless of the block number modulo the configuration period. -/
theorem claim4_counterexample :
    offchain_worker_invokes_handle_ingestion_queue 1 2 envEx [([0], 5)] = false := by rfl

/-- Claim C4 (amended): for every positive NodeConfigBlockDuration d, the
offchain worker reaches handle_ingestion_queue at block B exactly when
B mod d = 0, the node is a validator, the local ipfs identity fetch succeeds
and the bridge holds an association for the reported public key; at every
other block the ingestion queue is not processed. -/
theorem claim4_amended_modulus_gate (block_number d : Nat) (env : OffchainEnv)
    (bridge : List (List Nat × Nat)) (hd : 0 < d) :
    offchain_worker_invokes_handle_ingestion_queue block_number d env bridge = true ↔
      (block_number % d = 0 ∧ env.isValidator = true ∧ env.identityOk = true ∧
        (lookupA bridge env.identityPubkey).isSome = true) := by
  simp [offchain_worker_invokes_handle_ingestion_queue, Bool.and_eq_true, Nat.beq_eq_true_eq,
    and_assoc]

/-- Claim C4 witness: the amended theorem applied at block 4 with duration 2
in the concrete environment envEx with a one-entry bridge. -/
theorem claim4_amended_modulus_gate_witness :
    0 < 2 ∧
    (offchain_worker_invokes_handle_ingestion_queue 4 2 envEx [([0], 5)] = true ↔
      (4 % 2 = 0 ∧ envEx.isValidator = true ∧ envEx.identityOk = true ∧
        (lookupA [([0], 5)] envEx.identityPubkey).isSome = true)) :=
  ⟨by decide, claim4_amended_modulus_gate 4 2 envEx [([0], 5)] (by decide)⟩

/-- Claim C5: starting from any state whose IngestionStaging map is a
well-formed map (at most one entry per owner), staging k1 for owner O and then
staging k2 for O before any finalize leaves a well-formed map that sends O to
k2: the second call is not rejected (add_ingestion_staging has no error path)
and simply overwrites the entry, so the map keeps at most one staged entry per
owner. -/
theorem claim5_staging_overwrite (s : DataAssetsState) (O : Nat) (k1 k2 : List Nat)
    (h : distinctKeys s.ingestionStaging = true) :
    lookupA (add_ingestion_staging (add_ingestion_staging s O k1) O k2).ingestionStaging O =
      some k2 ∧
    distinctKeys (add_ingestion_staging (add_ingestion_staging s O k1) O k2).ingestionStaging =
      true := by
  constructor
  · simp [add_ingestion_staging, lookupA_insertA_self]
  · exact distinctKeys_insertA _ _ _ (distinctKeys_insertA _ _ _ h)

/-- Claim C5 witness: the theorem applied at the concrete state sOne with
owner 0 staging [7] and then [8]. -/
theorem claim5_staging_overwrite_witness :
    distinctKeys sOne.ingestionStaging = true ∧
    (lookupA (add_ingestion_staging (add_ingestion_staging sOne 0 [7]) 0 [8]).ingestionStaging 0 =
      some [8] ∧
    distinctKeys (add_ingestion_staging (add_ingestion_staging sOne 0 [7]) 0 [8]).ingestionStaging =
      true) :=
  ⟨by decide, claim5_staging_overwrite sOne 0 [7] [8] (by decide)⟩

/-- Claim C6: a single EncryptedFragment with a well-formed 32-byte ephemeral
public key whose ciphertext fails authenticated decryption under the delegatee
secret key (the salsaDecrypt oracle returns none, the model of a tag mismatch
after tampering) makes decrypt_capsule_fragments evaluate to none, the
embedding of a Rust panic: the source unwraps the SalsaBox decrypt result, so
a tampered fragment panics the caller instead of failing with a typed
decryption error as the claim requires; the parser argument here accepts
everything, showing the failure comes from the authenticated decryption. -/
theorem claim6_decrypt_capsule_fragments_panics_on_tamper :
    decrypt_capsule_fragments (fun _ _ _ _ => none) (fun v => some v)
      [{ public_key := List.replicate 32 0, nonce := List.replicate 24 0, ciphertext := [1, 2, 3] }]
      (List.replicate 32 1) = none := by rfl

/-- Claim C8: enqueue never deduplicates: two successive successful
create_request calls by the same owner with identical arguments leave the
queue of the gateway equal to the previous queue with two structurally-equal
commands appended in submission order. -/
theorem claim8_create_request_appends_duplicates (s : DataAssetsState)
    (who gateway gateway_reserve : Nat) (cid multiaddress : List Nat)
    (estimated_size_gb min_asset_balance : Nat) :
    ∃ s1 s2,
      create_request s who gateway gateway_reserve cid multiaddress estimated_size_gb
        min_asset_balance true = Except.ok s1 ∧
      create_request s1 who gateway gateway_reserve cid multiaddress estimated_size_gb
        min_asset_balance true = Except.ok s2 ∧
      ingestion_requests s2 gateway = ingestion_requests s gateway ++
        [{ owner := who, cid := cid, multiaddress := multiaddress,
           estimated_size_gb := estimated_size_gb, balance := min_asset_balance },
         { owner := who, cid := cid, multiaddress := multiaddress,
           estimated_size_gb := estimated_size_gb, balance := min_asset_balance }] := by
  refine ⟨_, _, rfl, rfl, ?_⟩
  simp [create_request, ingestion_requests, lookupA_insertA_self]

/-- Claim C10: once the bridge associates public key pk with account A, a
submit_ipfs_identity call for pk signed by any other account B fails with
InvalidPublicKey (the ensure! fires before any write, and dispatch is
transactional, so BootstrapNodes and SubstrateIpfsBridge are untouched),
while A itself can resubmit, updating the multiaddresses stored for pk and
keeping the association pointing at A. -/
theorem claim10_identity_binding_stable (s : IpfsState) (A B : Nat) (pk : List Nat)
    (addrs : List (List Nat)) (hA : lookupA s.substrateIpfsBridge pk = some A)
    (hBA : B ≠ A) :
    submit_ipfs_identity s B pk addrs = Except.error IpfsErr.invalidPublicKey ∧
    ∃ s2, submit_ipfs_identity s A pk addrs = Except.ok s2 ∧
      lookupA s2.bootstrapNodes pk = some addrs ∧
      lookupA s2.substrateIpfsBridge pk = some A := by
  constructor
  · simp [submit_ipfs_identity, hA, hBA]
  · refine ⟨{ bootstrapNodes := insertA s.bootstrapNodes pk addrs,
              substrateIpfsBridge := insertA s.substrateIpfsBridge pk A }, ?_, ?_, ?_⟩
    · simp [submit_ipfs_identity, hA]
    · exact lookupA_insertA_self _ _ _
    · exact lookupA_insertA_self _ _ _

/-- Claim C10 witness: the theorem applied at a concrete one-entry bridge
binding key [7] to account 1, with intruder account 2 and fresh
multiaddresses [[3]]. -/
theorem claim10_identity_binding_stable_witness :
    lookupA (IpfsState.mk [] [([7], 1)]).substrateIpfsBridge [7] = some 1 ∧
    (2 : Nat) ≠ 1 ∧
    (submit_ipfs_identity (IpfsState.mk [] [([7], 1)]) 2 [7] [[3]] =
        Except.error IpfsErr.invalidPublicKey ∧
      ∃ s2, submit_ipfs_identity (IpfsState.mk [] [([7], 1)]) 1 [7] [[3]] = Except.ok s2 ∧
        lookupA s2.bootstrapNodes [7] = some [[3]] ∧
        lookupA s2.substrateIpfsBridge [7] = some 1) :=
  ⟨rfl, by decide, claim10_identity_binding_stable (IpfsState.mk [] [([7], 1)]) 1 2 [7] [[3]]
    rfl (by decide)⟩

end Iris
